import Mathlib

/-!
Verification development for the Productivity-Tracker repository.

The timer core (`Task`), the registry (`TaskManager`), the desktop
Add-Task validation flow (`AddTaskWindow.add_task`), the midnight reset
scheduler (`App.schedule_resets`) and the web add route
(`flask_add_task`) are shallowly embedded below.  Wall-clock time is
passed explicitly as a rational `now`; Python's in-place mutation
becomes pure state transformation; the division in
`progress_percentage` (which raises `ZeroDivisionError` on a zero
denominator) is embedded as an `Option`-valued function where `none`
marks the raised exception.
-/

namespace PT

/-- Category string used by the daily reset sweep. -/
def catDaily : String := "Daily"

/-- Category string used by the weekly reset sweep. -/
def catWeekly : String := "Weekly"

/-- Category string used by the monthly reset sweep. -/
def catMonthly : String := "Monthly"

/-- Task state: name, duration budget in minutes, recurrence category,
accumulated elapsed seconds, start instant of the current run, running flag. -/
structure Task where
  name : String
  duration : Int
  category : String
  elapsed_time : ℚ
  start_time : ℚ
  running : Bool
deriving DecidableEq

/-- Embeds `Task.__init__`: elapsed and start are zero, not running. -/
def Task.init (name : String) (duration : Int) (category : String) : Task :=
  { name := name, duration := duration, category := category,
    elapsed_time := 0, start_time := 0, running := false }

/-- Embeds `Task.start`: records `now` and sets running when not running. -/
def Task.start (now : ℚ) (t : Task) : Task :=
  if t.running then t else { t with start_time := now, running := true }

/-- Embeds `Task.pause`: accumulates the active interval and stops when running. -/
def Task.pause (now : ℚ) (t : Task) : Task :=
  if t.running then
    { t with elapsed_time := t.elapsed_time + (now - t.start_time), running := false }
  else t

/-- Embeds `Task.toggle_status`: pause when running, start otherwise. -/
def Task.toggle_status (now : ℚ) (t : Task) : Task :=
  if t.running then t.pause now else t.start now

/-- Embeds Python's `"{:02d}".format` padding: pad with zeros to width two. -/
def leftpad2 (s : String) : String :=
  if s.length < 2 then String.mk (List.replicate (2 - s.length) '0') ++ s else s

/-- Formats one integer field of the `HH:MM:SS` string. -/
def fmt2 (n : Int) : String := leftpad2 (toString n)

/-- Embeds the shared `divmod`/format block of `Task.remaining_time`:
`divmod(rs, 3600)` then `divmod(remainder, 60)` then two-digit formatting. -/
def hmsString (rs : ℚ) : String :=
  let hours : Int := ⌊rs / 3600⌋
  let remainder : ℚ := rs - 3600 * (hours : ℚ)
  let minutes : Int := ⌊remainder / 60⌋
  let seconds : ℚ := remainder - 60 * (minutes : ℚ)
  fmt2 hours ++ ":" ++ fmt2 minutes ++ ":" ++ fmt2 ⌊seconds⌋

/-- Embeds `Task.remaining_time`: clamped remaining seconds, formatted. -/
def Task.remaining_time (now : ℚ) (t : Task) : String :=
  if t.running then
    hmsString (max 0 ((t.duration : ℚ) * 60 - t.elapsed_time - (now - t.start_time)))
  else
    hmsString (max 0 ((t.duration : ℚ) * 60 - t.elapsed_time))

/-- Embeds `Task.progress_percentage`; `none` is the `ZeroDivisionError`
raised by `100 * remaining_seconds / (self.duration * 60)` when the
denominator is zero. -/
def Task.progress_percentage (now : ℚ) (t : Task) : Option ℚ :=
  let remaining_seconds : ℚ :=
    if t.running then max 0 ((t.duration : ℚ) * 60 - t.elapsed_time - (now - t.start_time))
    else max 0 ((t.duration : ℚ) * 60 - t.elapsed_time)
  if (t.duration : ℚ) * 60 = 0 then none
  else some (100 * remaining_seconds / ((t.duration : ℚ) * 60))

namespace TaskManager

/-- Embeds `TaskManager.add_task` on the in-memory list: plain append,
no uniqueness check. -/
def add_task (tasks : List Task) (task : Task) : List Task := tasks ++ [task]

/-- Embeds `TaskManager.remove_task` on the in-memory list: keep the
tasks whose name differs. -/
def remove_task (tasks : List Task) (task_name : String) : List Task :=
  tasks.filter (fun task => task.name != task_name)

/-- Embeds `TaskManager.reset_daily_tasks`: zero elapsed and start on
daily tasks. -/
def reset_daily_tasks (tasks : List Task) : List Task :=
  tasks.map (fun task =>
    if task.category = catDaily then { task with elapsed_time := 0, start_time := 0 }
    else task)

/-- Embeds `TaskManager.reset_weekly_tasks`. -/
def reset_weekly_tasks (tasks : List Task) : List Task :=
  tasks.map (fun task =>
    if task.category = catWeekly then { task with elapsed_time := 0, start_time := 0 }
    else task)

/-- Embeds `TaskManager.reset_monthly_tasks`. -/
def reset_monthly_tasks (tasks : List Task) : List Task :=
  tasks.map (fun task =>
    if task.category = catMonthly then { task with elapsed_time := 0, start_time := 0 }
    else task)

end TaskManager

/-- Embeds Python's `str.isdigit` for the ASCII strings entered in the
spinboxes: nonempty and all characters are digits. -/
def pyIsdigit (s : String) : Bool := !s.data.isEmpty && s.data.all Char.isDigit

/-- Embeds `int(s)` for a digit-only string: base-10 value of the digits. -/
def pyInt (s : String) : Nat := s.data.foldl (fun n c => 10 * n + (c.toNat - 48)) 0

/-- Inline error shown for an empty name. -/
def msgNoName : String := "Please give the task a name."

/-- Inline error shown for non-digit time fields. -/
def msgDigits : String := "Please enter only digits for hours and minutes."

/-- Inline error shown for a zero total duration. -/
def msgZeroDuration : String := "Please add time to the task, it cannot be 0."

/-- Inline error shown for a duplicate task name. -/
def msgDuplicate : String := "Task with this name already exists."

namespace AddTaskWindow

/-- Embeds `AddTaskWindow.add_task`: the validation chain of the desktop
Add-Task flow; `Except.error` is the inline error message with the
registry untouched, `Except.ok` the registry after the add. -/
def add_task (tasks : List Task) (name hours minutes category : String) :
    Except String (List Task) :=
  if name = "" then Except.error msgNoName
  else if !(pyIsdigit hours && pyIsdigit minutes) then Except.error msgDigits
  else if pyInt hours = 0 ∧ pyInt minutes = 0 then Except.error msgZeroDuration
  else if tasks.any (fun task => task.name == name) then Except.error msgDuplicate
  else Except.ok (TaskManager.add_task tasks
    (Task.init name ((pyInt hours : Int) * 60 + (pyInt minutes : Int)) category))

end AddTaskWindow

/-- The wall-clock fields `App.schedule_resets` reads from `datetime.now()`. -/
structure DateTime where
  hour : Nat
  minute : Nat
  weekday : Nat
  day : Nat

namespace App

/-- Embeds `App.schedule_resets`: three independent checks on the same
tick, each applying its category sweep to the registry. -/
def schedule_resets (now : DateTime) (tasks : List Task) : List Task :=
  let t1 := if now.hour = 0 ∧ now.minute = 0 then TaskManager.reset_daily_tasks tasks
    else tasks
  let t2 := if now.weekday = 0 ∧ now.hour = 0 ∧ now.minute = 0 then
    TaskManager.reset_weekly_tasks t1 else t1
  if now.day = 1 ∧ now.hour = 0 ∧ now.minute = 0 then TaskManager.reset_monthly_tasks t2
  else t2

end App

/-- Embeds the web route `POST /add_task`: constructs the task from the
form fields with no validation and appends it. -/
def flask_add_task (tasks : List Task) (name : String) (duration : Int)
    (category : String) : List Task :=
  TaskManager.add_task tasks (Task.init name duration category)

/-- Spec-side formatter for the remaining-time claim: `n` seconds
rendered as `HH:MM:SS`, each field zero-padded to two digits. -/
def specHMS (n : Nat) : String :=
  leftpad2 (toString (n / 3600)) ++ ":" ++ leftpad2 (toString (n % 3600 / 60)) ++ ":" ++
    leftpad2 (toString (n % 60))

/-- Per-task effect of a category reset sweep on a matching task. -/
def Task.reset (t : Task) : Task := { t with elapsed_time := 0, start_time := 0 }

/-- Task states reachable with a positive wall clock when no reset sweep
ever hits a running task. -/
inductive ReachableP : Task → Prop
| init (name : String) (duration : Int) (category : String) :
    ReachableP (Task.init name duration category)
| start (t : Task) (now : ℚ) : 0 < now → ReachableP t → ReachableP (t.start now)
| pause (t : Task) (now : ℚ) : ReachableP t → ReachableP (t.pause now)
| toggle (t : Task) (now : ℚ) : 0 < now → ReachableP t → ReachableP (t.toggle_status now)
| reset (t : Task) : t.running = false → ReachableP t → ReachableP t.reset

/-- Example name used in concrete instances. -/
def exName : String := "Laundry"

/-- Floor of a rational quotient of naturals is natural division. -/
theorem floorq_natCast_div (m n : Nat) : ⌊(m : ℚ) / (n : ℚ)⌋ = ((m / n : Nat) : Int) := by
  rw [← Int.natCast_floor_eq_floor (by positivity), Nat.floor_div_eq_div]

/-- Printing an integer that is a cast natural prints the natural. -/
theorem toString_intCast (k : Nat) : toString ((k : Nat) : Int) = toString k := rfl

/-- On a whole number of seconds the divmod/format block agrees with the
spec-side `HH:MM:SS` formatter. -/
theorem hmsString_natCast (n : Nat) : hmsString ((n : Nat) : ℚ) = specHMS n := by
  have h1 : ⌊(n : ℚ) / 3600⌋ = ((n / 3600 : Nat) : Int) := by
    exact_mod_cast floorq_natCast_div n 3600
  have h2 : (n : ℚ) - 3600 * ((n / 3600 : Nat) : ℚ) = ((n % 3600 : Nat) : ℚ) := by
    have h := congrArg (fun m : ℕ => (m : ℚ)) (Nat.div_add_mod n 3600)
    push_cast at h
    linarith
  have h3 : ⌊((n % 3600 : Nat) : ℚ) / 60⌋ = ((n % 3600 / 60 : Nat) : Int) := by
    exact_mod_cast floorq_natCast_div (n % 3600) 60
  have h4 : ((n % 3600 : Nat) : ℚ) - 60 * ((n % 3600 / 60 : Nat) : ℚ)
      = ((n % 60 : Nat) : ℚ) := by
    have hmm : n % 3600 % 60 = n % 60 := Nat.mod_mod_of_dvd n (by norm_num)
    have h := congrArg (fun m : ℕ => (m : ℚ)) (Nat.div_add_mod (n % 3600) 60)
    rw [hmm] at h
    push_cast at h
    linarith
  unfold hmsString specHMS
  simp only [h1, Int.cast_natCast, h2, h3, h4, Int.floor_natCast, fmt2, toString_intCast]

/-- A paused task with elapsed `E ≤ D*60` renders `D*60 - E` seconds. -/
theorem remaining_time_paused_eq (t : Task) (now : ℚ) (D E : Nat)
    (hdur : t.duration = (D : Int)) (hE : E ≤ D * 60) (hel : t.elapsed_time = (E : ℚ))
    (hrun : t.running = false) :
    t.remaining_time now = specHMS (D * 60 - E) := by
  have hle : (E : ℚ) ≤ ((D * 60 : Nat) : ℚ) := by exact_mod_cast hE
  push_cast at hle
  have hmax : max 0 ((t.duration : ℚ) * 60 - t.elapsed_time) = ((D * 60 - E : Nat) : ℚ) := by
    rw [hdur, hel, Nat.cast_sub hE]
    push_cast
    rw [max_eq_right (by linarith)]
  unfold Task.remaining_time
  rw [hrun]
  simp only [Bool.false_eq_true, if_false]
  rw [hmax, hmsString_natCast]

/-- C1: for every task with duration `D > 0` minutes and elapsed seconds
`E` with `0 ≤ E < D*60` that is not running, `remaining_time` returns
`max 0 (D*60 - E)` seconds formatted as `HH:MM:SS` with each field
zero-padded to two digits. -/
theorem remaining_time_paused_formats (t : Task) (now : ℚ) (D E : Nat) (hD : 0 < D)
    (hdur : t.duration = (D : Int)) (hE : E < D * 60) (hel : t.elapsed_time = (E : ℚ))
    (hrun : t.running = false) :
    t.remaining_time now = specHMS (D * 60 - E) :=
  remaining_time_paused_eq t now D E hdur hE.le hel hrun

/-- Witness for C1 at `D = 30`, `E = 0`. -/
theorem remaining_time_paused_formats_witness :
    0 < 30 ∧ (Task.init exName 30 catDaily).remaining_time 0 = specHMS (30 * 60 - 0) :=
  ⟨by decide, remaining_time_paused_formats (Task.init exName 30 catDaily) 0 30 0
    (by decide) rfl (by decide) (by norm_num [Task.init]) rfl⟩

/-- `progress_percentage` on a nonzero duration: the raw division. -/
theorem pp_eq (t : Task) (now : ℚ) (hden : (t.duration : ℚ) * 60 ≠ 0) :
    t.progress_percentage now = some (100 * (if t.running then
      max 0 ((t.duration : ℚ) * 60 - t.elapsed_time - (now - t.start_time))
    else max 0 ((t.duration : ℚ) * 60 - t.elapsed_time)) / ((t.duration : ℚ) * 60)) := by
  unfold Task.progress_percentage
  rw [if_neg hden]

/-- A paused task with no elapsed time reports 100 percent remaining. -/
theorem pp_at_full (t : Task) (now : ℚ) (hD : 0 < t.duration) (h0 : t.elapsed_time = 0)
    (hr : t.running = false) : t.progress_percentage now = some 100 := by
  have hden : (0 : ℚ) < (t.duration : ℚ) * 60 := by
    have h : (0 : ℚ) < (t.duration : ℚ) := by exact_mod_cast hD
    linarith
  rw [pp_eq t now (ne_of_gt hden), hr, h0]
  simp only [Bool.false_eq_true, if_false, sub_zero]
  rw [max_eq_right hden.le, mul_div_assoc, div_self (ne_of_gt hden), mul_one]

/-- A task whose elapsed time reached the budget reports 0 percent. -/
theorem pp_overrun (t : Task) (now : ℚ) (hD : 0 < t.duration) (hclk : t.start_time ≤ now)
    (hge : (t.duration : ℚ) * 60 ≤ t.elapsed_time) : t.progress_percentage now = some 0 := by
  have hden : (0 : ℚ) < (t.duration : ℚ) * 60 := by
    have h : (0 : ℚ) < (t.duration : ℚ) := by exact_mod_cast hD
    linarith
  have hns : (0 : ℚ) ≤ now - t.start_time := sub_nonneg.mpr hclk
  rw [pp_eq t now (ne_of_gt hden)]
  cases hr : t.running with
  | false =>
    simp only [Bool.false_eq_true, if_false]
    rw [max_eq_left (by linarith), mul_zero, zero_div]
  | true =>
    rw [if_pos rfl, max_eq_left (by linarith), mul_zero, zero_div]

/-- The reported percentage is never negative when the duration is positive. -/
theorem pp_nonneg_ex (t : Task) (now : ℚ) (hD : 0 < t.duration) :
    ∃ q, t.progress_percentage now = some q ∧ 0 ≤ q := by
  have hden : (0 : ℚ) < (t.duration : ℚ) * 60 := by
    have h : (0 : ℚ) < (t.duration : ℚ) := by exact_mod_cast hD
    linarith
  have hrs : (0 : ℚ) ≤ (if t.running then
      max 0 ((t.duration : ℚ) * 60 - t.elapsed_time - (now - t.start_time))
    else max 0 ((t.duration : ℚ) * 60 - t.elapsed_time)) := by
    cases t.running <;> simp
  exact ⟨_, pp_eq t now (ne_of_gt hden),
    div_nonneg (mul_nonneg (by norm_num) hrs) hden.le⟩

/-- C2: for every task with positive duration (under a monotone wall
clock), `progress_percentage` returns 100 at zero elapsed when paused,
returns 0 once elapsed reaches the budget, and is never negative; a
freshly constructed 30-minute task reports `00:30:00` and 100 percent. -/
theorem progress_percentage_clamped (t : Task) (now : ℚ) (hD : 0 < t.duration)
    (hclk : t.start_time ≤ now) :
    (t.elapsed_time = 0 → t.running = false → t.progress_percentage now = some 100) ∧
    ((t.duration : ℚ) * 60 ≤ t.elapsed_time → t.progress_percentage now = some 0) ∧
    (∃ q, t.progress_percentage now = some q ∧ 0 ≤ q) ∧
    (Task.init exName 30 catDaily).remaining_time 0 = "00:30:00" ∧
    Task.progress_percentage 0 (Task.init exName 30 catDaily) = some 100 :=
  ⟨fun h0 hr => pp_at_full t now hD h0 hr,
   fun hge => pp_overrun t now hD hclk hge,
   pp_nonneg_ex t now hD,
   by
     rw [remaining_time_paused_eq (Task.init exName 30 catDaily) 0 30 0 rfl (by decide)
       (by norm_num [Task.init]) rfl]
     decide,
   pp_at_full (Task.init exName 30 catDaily) 0 (by decide) rfl rfl⟩

/-- Witness for C2 at a fresh one-minute task and clock 0. -/
theorem progress_percentage_clamped_witness :
    (0 : Int) < (Task.init exName 1 catDaily).duration ∧
    (Task.init exName 1 catDaily).start_time ≤ 0 ∧
    Task.progress_percentage 0 (Task.init exName 1 catDaily) = some 100 :=
  ⟨by decide, by norm_num [Task.init],
    (progress_percentage_clamped (Task.init exName 1 catDaily) 0 (by decide)
      (by norm_num [Task.init])).1 rfl rfl⟩

/-- Pausing a task that is not running changes nothing. -/
theorem pause_not_running (t : Task) (now : ℚ) (h : t.running = false) : t.pause now = t := by
  simp [Task.pause, h]

/-- Pausing a running task accumulates the active interval and stops it,
leaving `start_time` untouched. -/
theorem pause_running (t : Task) (now : ℚ) (h : t.running = true) :
    t.pause now =
      { t with elapsed_time := t.elapsed_time + (now - t.start_time), running := false } := by
  simp [Task.pause, h]

/-- Starting a running task changes nothing. -/
theorem start_running (t : Task) (now : ℚ) (h : t.running = true) : t.start now = t := by
  simp [Task.start, h]

/-- Starting a paused task records the clock and sets the flag. -/
theorem start_not_running (t : Task) (now : ℚ) (h : t.running = false) :
    t.start now = { t with start_time := now, running := true } := by
  simp [Task.start, h]

/-- Toggling a running task pauses it. -/
theorem toggle_running (t : Task) (now : ℚ) (h : t.running = true) :
    t.toggle_status now = t.pause now := by
  simp [Task.toggle_status, h]

/-- Toggling a paused task starts it. -/
theorem toggle_not_running (t : Task) (now : ℚ) (h : t.running = false) :
    t.toggle_status now = t.start now := by
  simp [Task.toggle_status, h]

/-- C3: each category reset zeroes `elapsed_time` and `start_time` of
exactly the tasks of its category, leaves tasks of other categories
unchanged, preserves list length, and never touches the running flag. -/
theorem reset_by_category_frame (tasks : List Task) (i : Nat) (t : Task)
    (hget : tasks[i]? = some t) :
    (TaskManager.reset_daily_tasks tasks).length = tasks.length ∧
    (TaskManager.reset_daily_tasks tasks)[i]? =
      some (if t.category = catDaily then t.reset else t) ∧
    (TaskManager.reset_weekly_tasks tasks).length = tasks.length ∧
    (TaskManager.reset_weekly_tasks tasks)[i]? =
      some (if t.category = catWeekly then t.reset else t) ∧
    (TaskManager.reset_monthly_tasks tasks).length = tasks.length ∧
    (TaskManager.reset_monthly_tasks tasks)[i]? =
      some (if t.category = catMonthly then t.reset else t) ∧
    t.reset.running = t.running :=
  ⟨by simp [TaskManager.reset_daily_tasks],
   by simp [TaskManager.reset_daily_tasks, List.getElem?_map, hget, Task.reset],
   by simp [TaskManager.reset_weekly_tasks],
   by simp [TaskManager.reset_weekly_tasks, List.getElem?_map, hget, Task.reset],
   by simp [TaskManager.reset_monthly_tasks],
   by simp [TaskManager.reset_monthly_tasks, List.getElem?_map, hget, Task.reset],
   rfl⟩

/-- Witness for C3 on a one-element daily registry. -/
theorem reset_by_category_frame_witness :
    [Task.init exName 30 catDaily][0]? = some (Task.init exName 30 catDaily) ∧
    (TaskManager.reset_daily_tasks [Task.init exName 30 catDaily])[0]? =
      some (if (Task.init exName 30 catDaily).category = catDaily then
        (Task.init exName 30 catDaily).reset else Task.init exName 30 catDaily) :=
  ⟨rfl, (reset_by_category_frame [Task.init exName 30 catDaily] 0
    (Task.init exName 30 catDaily) rfl).2.1⟩

/-- C4 (amended): `pause()` is a no-op when not running; when running it
adds `now - start_instant` to the elapsed seconds and clears the running
flag, but leaves `start_instant` unchanged rather than clearing it. -/
theorem pause_spec (t : Task) (now : ℚ) :
    (t.running = false → t.pause now = t) ∧
    (t.running = true → t.pause now =
      { t with elapsed_time := t.elapsed_time + (now - t.start_time), running := false }) :=
  ⟨pause_not_running t now, pause_running t now⟩

/-- Witness for C4: pausing at clock 10 a task started at clock 5. -/
theorem pause_spec_witness :
    ((Task.init exName 30 catDaily).start 5).running = true ∧
    ((Task.init exName 30 catDaily).start 5).pause 10 =
      { name := exName, duration := 30, category := catDaily, elapsed_time := 5,
        start_time := 5, running := false } :=
  ⟨rfl, by
    rw [(pause_spec ((Task.init exName 30 catDaily).start 5) 10).2 rfl]
    norm_num [Task.init, Task.start]⟩

/-- Counterexample to C4 as stated: after starting at clock 5 and
pausing at clock 10, `start_time` is 5, not cleared to 0. -/
theorem pause_keeps_start_cex :
    (((Task.init exName 30 catDaily).start 5).pause 10).start_time ≠ 0 := by
  norm_num [Task.init, Task.start, Task.pause]

/-- A reachable running task has a positive start instant. -/
theorem reachableP_running_start_pos (t : Task) (h : ReachableP t) :
    t.running = true → 0 < t.start_time := by
  induction h with
  | init name duration category => intro hr; exact absurd hr (by simp [Task.init])
  | start t now hnow ht ih =>
    intro hr
    cases hrt : t.running with
    | true => rw [start_running t now hrt] at hr ⊢; exact ih hr
    | false => rw [start_not_running t now hrt]; exact hnow
  | pause t now ht ih =>
    intro hr
    cases hrt : t.running with
    | true => rw [pause_running t now hrt] at hr; simp at hr
    | false => rw [pause_not_running t now hrt] at hr ⊢; exact ih hr
  | toggle t now hnow ht ih =>
    intro hr
    cases hrt : t.running with
    | true =>
      rw [toggle_running t now hrt, pause_running t now hrt] at hr
      simp at hr
    | false =>
      rw [toggle_not_running t now hrt, start_not_running t now hrt]
      exact hnow
  | reset t hnr ht ih =>
    intro hr
    rw [show t.reset.running = t.running from rfl] at hr
    rw [hnr] at hr
    simp at hr

/-- C5 (amended): along traces built from construction, `start` with a
positive clock, `pause`, `toggle` with a positive clock, and resets that
hit only non-running tasks, a running task always has `start_instant`
set; the converse direction of the claimed invariant is false. -/
theorem running_implies_start_set (t : Task) (h : ReachableP t) (hr : t.running = true) :
    t.start_time ≠ 0 :=
  (reachableP_running_start_pos t h hr).ne'

/-- Witness for C5 on a task started at clock 5. -/
theorem running_implies_start_set_witness :
    ((Task.init exName 30 catDaily).start 5).running = true ∧
    ((Task.init exName 30 catDaily).start 5).start_time ≠ 0 :=
  ⟨rfl, running_implies_start_set ((Task.init exName 30 catDaily).start 5)
    (ReachableP.start (Task.init exName 30 catDaily) 5 (by norm_num)
      (ReachableP.init exName 30 catDaily)) rfl⟩

/-- Counterexample to C5 as stated: toggling twice from construction
(start at 5, pause at 10) reaches a state that is not running yet still
has a nonzero `start_instant`. -/
theorem running_start_invariant_cex :
    (((Task.init exName 30 catDaily).toggle_status 5).toggle_status 10).running = false ∧
    (((Task.init exName 30 catDaily).toggle_status 5).toggle_status 10).start_time ≠ 0 := by
  constructor
  · norm_num [Task.init, Task.toggle_status, Task.start, Task.pause]
  · norm_num [Task.init, Task.toggle_status, Task.start, Task.pause]

/-- C6: two consecutive `toggle_status` calls restore the running flag. -/
theorem toggle_toggle_running (t : Task) (now1 now2 : ℚ) :
    ((t.toggle_status now1).toggle_status now2).running = t.running := by
  cases hrt : t.running with
  | true =>
    rw [toggle_running t now1 hrt, pause_running t now1 hrt]
    rw [toggle_not_running _ now2 rfl, start_not_running _ now2 rfl]
  | false =>
    rw [toggle_not_running t now1 hrt, start_not_running t now1 hrt]
    rw [toggle_running _ now2 rfl, pause_running _ now2 rfl]

/-- Hours field used in concrete Add-Task inputs. -/
def exHours : String := "1"

/-- Minutes field used in concrete Add-Task inputs. -/
def exMinutes : String := "0"

/-- C7: in the desktop Add-Task flow, a submission whose name is already
in the registry and which passes the earlier validations is rejected
with the inline duplicate-name error before the registry add runs, so
the registry is unchanged; the registry add itself enforces no
uniqueness and appends regardless. -/
theorem duplicate_name_rejected (tasks : List Task) (name hours minutes category : String)
    (hname : ¬ name = "") (hdig : (pyIsdigit hours && pyIsdigit minutes) = true)
    (hnz : ¬ (pyInt hours = 0 ∧ pyInt minutes = 0))
    (hdup : tasks.any (fun task => task.name == name) = true) :
    AddTaskWindow.add_task tasks name hours minutes category = Except.error msgDuplicate ∧
    ∀ task : Task, (TaskManager.add_task tasks task).length = tasks.length + 1 := by
  constructor
  · unfold AddTaskWindow.add_task
    rw [if_neg hname, if_neg (by simp [hdig]), if_neg hnz, if_pos hdup]
  · intro task
    simp [TaskManager.add_task]

/-- Witness for C7: re-adding the existing name is rejected inline. -/
theorem duplicate_name_rejected_witness :
    ([Task.init exName 30 catDaily].any (fun task => task.name == exName)) = true ∧
    AddTaskWindow.add_task [Task.init exName 30 catDaily] exName exHours exMinutes catDaily =
      Except.error msgDuplicate :=
  ⟨by decide, (duplicate_name_rejected [Task.init exName 30 catDaily] exName exHours
    exMinutes catDaily (by decide) (by decide) (by decide) (by decide)).1⟩

/-- C8: on a tick, the daily sweep fires iff hour and minute are zero,
the weekly sweep additionally requires Monday, the monthly sweep
additionally requires day 1, and the checks are independent: on an
overlapping tick every applicable sweep fires. -/
theorem schedule_resets_fires (now : DateTime) (tasks : List Task) :
    (¬ (now.hour = 0 ∧ now.minute = 0) → App.schedule_resets now tasks = tasks) ∧
    (now.hour = 0 → now.minute = 0 →
      ((now.weekday ≠ 0 → now.day ≠ 1 →
        App.schedule_resets now tasks = TaskManager.reset_daily_tasks tasks) ∧
       (now.weekday = 0 → now.day ≠ 1 →
        App.schedule_resets now tasks =
          TaskManager.reset_weekly_tasks (TaskManager.reset_daily_tasks tasks)) ∧
       (now.weekday ≠ 0 → now.day = 1 →
        App.schedule_resets now tasks =
          TaskManager.reset_monthly_tasks (TaskManager.reset_daily_tasks tasks)) ∧
       (now.weekday = 0 → now.day = 1 →
        App.schedule_resets now tasks =
          TaskManager.reset_monthly_tasks (TaskManager.reset_weekly_tasks
            (TaskManager.reset_daily_tasks tasks))))) := by
  refine ⟨fun h => ?_, fun hh hm => ⟨fun hw hd => ?_, fun hw hd => ?_, fun hw hd => ?_,
    fun hw hd => ?_⟩⟩ <;>
    simp only [App.schedule_resets] <;> split_ifs <;> first | rfl | tauto

/-- Witness for C8 at Monday midnight on the first of the month. -/
theorem schedule_resets_fires_witness :
    (DateTime.mk 0 0 0 1).hour = 0 ∧ (DateTime.mk 0 0 0 1).minute = 0 ∧
    App.schedule_resets (DateTime.mk 0 0 0 1) [Task.init exName 30 catDaily] =
      TaskManager.reset_monthly_tasks (TaskManager.reset_weekly_tasks
        (TaskManager.reset_daily_tasks [Task.init exName 30 catDaily])) :=
  ⟨rfl, rfl, (((schedule_resets_fires (DateTime.mk 0 0 0 1)
    [Task.init exName 30 catDaily]).2 rfl rfl).2.2.2 rfl rfl)⟩

/-- Filtering out the satisfying elements equals erasing the first one
when at most one element satisfies the predicate. -/
theorem filter_not_eraseP {α : Type} (p : α → Bool) (l : List α) (h : l.countP p ≤ 1) :
    l.filter (fun a => !(p a)) = l.eraseP p := by
  induction l with
  | nil => rfl
  | cons a l ih =>
    rw [List.countP_cons] at h
    cases hp : p a with
    | true =>
      have h0 : l.countP p = 0 := by rw [if_pos hp] at h; omega
      rw [List.filter_cons, List.eraseP_cons, hp]
      simp only [Bool.not_true, if_false, cond_true]
      apply List.filter_eq_self.mpr
      intro b hb
      have hnb := List.countP_eq_zero.mp h0 b hb
      simp [hnb]
    | false =>
      have hl : l.countP p ≤ 1 := by rwa [if_neg (by simp [hp]), Nat.add_zero] at h
      rw [List.filter_cons, List.eraseP_cons, hp]
      simp only [Bool.not_false, if_true, cond_false]
      rw [ih hl]

/-- C9: with names unique as expected (at most one match), `remove_task`
removes exactly the first task with the given name from the in-memory
list, is a raise-free no-op when no task has that name, and keeps every
task with a different name. -/
theorem remove_task_spec (tasks : List Task) (name : String)
    (huniq : tasks.countP (fun task => task.name == name) ≤ 1) :
    TaskManager.remove_task tasks name = tasks.eraseP (fun task => task.name == name) ∧
    ((∀ task ∈ tasks, task.name ≠ name) → TaskManager.remove_task tasks name = tasks) ∧
    (∀ task ∈ tasks, task.name ≠ name → task ∈ TaskManager.remove_task tasks name) := by
  refine ⟨?_, ?_, ?_⟩
  · have h := filter_not_eraseP (fun task => task.name == name) tasks huniq
    simpa [TaskManager.remove_task, bne] using h
  · intro hall
    apply List.filter_eq_self.mpr
    intro task ht
    simpa using hall task ht
  · intro task ht hne
    apply List.mem_filter.mpr
    exact ⟨ht, by simpa using hne⟩

/-- Witness for C9 removing the only task of a singleton registry. -/
theorem remove_task_spec_witness :
    ([Task.init exName 30 catDaily].countP (fun task => task.name == exName)) ≤ 1 ∧
    TaskManager.remove_task [Task.init exName 30 catDaily] exName =
      [Task.init exName 30 catDaily].eraseP (fun task => task.name == exName) :=
  ⟨by decide, (remove_task_spec [Task.init exName 30 catDaily] exName (by decide)).1⟩

/-- C10: `progress_percentage` succeeds whenever the duration is
positive, but the unvalidated web add route can construct a task with
duration 0, on which the unguarded division raises `ZeroDivisionError`
(`none` in the embedding). -/
theorem zero_duration_raises :
    (∀ (t : Task) (now : ℚ), 0 < t.duration → (t.progress_percentage now).isSome = true) ∧
    flask_add_task [] exName 0 catDaily = [Task.init exName 0 catDaily] ∧
    Task.progress_percentage 0 (Task.init exName 0 catDaily) = none := by
  refine ⟨?_, rfl, ?_⟩
  · intro t now hD
    have hpos : (0 : ℚ) < (t.duration : ℚ) := by exact_mod_cast hD
    rw [pp_eq t now (by positivity)]
    rfl
  · simp [Task.progress_percentage, Task.init]

/-- Witness for C10's positive-duration conjunct at a 30-minute task. -/
theorem zero_duration_raises_witness :
    (0 : Int) < (Task.init exName 30 catDaily).duration ∧
    (Task.progress_percentage 0 (Task.init exName 30 catDaily)).isSome = true :=
  ⟨by decide, zero_duration_raises.1 (Task.init exName 30 catDaily) 0 (by decide)⟩

end PT
